import Mathlib

/-!
Verification of the authentication and authorization core of the
graphql-express-example repository.

The embedding below translates the TypeScript source into Lean:

* `src/graphql/guards.ts` — `requireAuth`, `requireOwnership` (thrown
  GraphQLError values become `Except GqlError` results);
* `src/graphql/context.ts` — `createContext` (the jwt verification call is a
  function parameter, since its failure mode — throw versus identity — is all
  the context code observes);
* `src/graphql/resolvers/userMutations.ts` — `register`, `login`,
  `updateUser`, and the queries `users`, `user`, `me` (the drizzle database is
  a list of `User` rows; `db.select().where(eq(...))` becomes `List.filter`);
* `src/db/schema.ts` — the `users` table row type, including the
  `$onUpdate(() => new Date())` hook on `updatedAt`, which fires on every
  update statement of the table; timestamps are modelled as natural numbers.

Password hashing and token signing (`src/lib/jwt.ts`) are not part of the
repository snapshot, so resolvers take the hashing / comparison / signing
functions as parameters, and the TokenService and SessionStore components are
modelled from the specification where a claim needs their internals.
-/

namespace GraphqlExpress

/-- Equality of `Except` values is decidable when both components are; used to
evaluate resolver runs on concrete inputs. -/
instance {ε α : Type} [DecidableEq ε] [DecidableEq α] : DecidableEq (Except ε α) := fun a b =>
  match a, b with
  | .error e1, .error e2 =>
    if h : e1 = e2 then .isTrue (by rw [h]) else .isFalse (fun hc => by cases hc; exact h rfl)
  | .ok v1, .ok v2 =>
    if h : v1 = v2 then .isTrue (by rw [h]) else .isFalse (fun hc => by cases hc; exact h rfl)
  | .error _, .ok _ => .isFalse (fun hc => by cases hc)
  | .ok _, .error _ => .isFalse (fun hc => by cases hc)

/-- `s.startsWith(p)` of TypeScript, written over the character lists so that
it evaluates by kernel reduction. -/
def strStartsWith (s p : String) : Bool :=
  decide (s.toList.take p.toList.length = p.toList)

/-- `s.toLowerCase()` of TypeScript, written over the character lists so that
it evaluates by kernel reduction. -/
def strToLower (s : String) : String :=
  ⟨s.toList.map Char.toLower⟩

/-- A GraphQLError as thrown by the resolvers: a message plus the optional
`extensions.code` value. Plain `new Error(msg)` is modelled with `code = none`. -/
structure GqlError where
  message : String
  code : Option String
deriving DecidableEq

/-- Error thrown by `requireAuth` in src/graphql/guards.ts. -/
def unauthenticatedError : GqlError :=
  ⟨"Unauthorized - Authentication required", some "UNAUTHENTICATED"⟩

/-- Error thrown by `requireOwnership` in src/graphql/guards.ts. -/
def ownershipForbiddenError : GqlError :=
  ⟨"Forbidden - You can only access your own resources", some "FORBIDDEN"⟩

/-- Error thrown by `login` when no user matches the email or the password
comparison fails. -/
def invalidCredentialsError : GqlError :=
  ⟨"Invalid email or password", some "BAD_USER_INPUT"⟩

/-- Error thrown by `login` when the matched user record has `isSuspend` set. -/
def accountSuspendedError : GqlError :=
  ⟨"Account is suspended", some "FORBIDDEN"⟩

/-- Error thrown by `register` when the email is already taken. -/
def emailExistsError : GqlError :=
  ⟨"User with this email already exists", some "BAD_USER_INPUT"⟩

/-- Error thrown by `updateUser` and the `me` query when no row matches. -/
def userNotFoundError : GqlError := ⟨"User not found", none⟩

/-- The `context.user` payload of src/graphql/context.ts. Roles are the raw
strings of the TypeScript union "customer" | "contractor" | "admin". -/
structure AuthUser where
  userId : String
  email : String
  role : String
deriving DecidableEq

/-- The GraphQLContext of src/graphql/context.ts: an optional authenticated
user. -/
structure GraphQLContext where
  user : Option AuthUser := none
deriving DecidableEq

/-- `createContext` of src/graphql/context.ts. The request is represented by
its Authorization header (`none` when absent); `verifyAccessToken` is passed in
as a function returning `none` exactly when the library call throws. The
try/catch of the source means the function is total: every outcome is a
context value, never an error. -/
def createContext (verifyAccessToken : String → Option AuthUser)
    (authHeader : Option String) : GraphQLContext :=
  match authHeader with
  | some h =>
    if strStartsWith h "Bearer " then
      match verifyAccessToken (h.drop 7) with
      | some decoded => { user := some ⟨decoded.userId, decoded.email, decoded.role⟩ }
      | none => {}
    else {}
  | none => {}

/-- `requireAuth` of src/graphql/guards.ts. -/
def requireAuth (context : GraphQLContext) : Except GqlError AuthUser :=
  match context.user with
  | none => .error unauthenticatedError
  | some u => .ok u

/-- `requireOwnership` of src/graphql/guards.ts. -/
def requireOwnership (context : GraphQLContext) (resourceUserId : String) :
    Except GqlError AuthUser :=
  match requireAuth context with
  | .error e => .error e
  | .ok user =>
    if user.userId ≠ resourceUserId ∧ user.role ≠ "admin" then
      .error ownershipForbiddenError
    else
      .ok user

/-- A row of the `users` table of src/db/schema.ts. Timestamps are natural
numbers; the json `refreshTokens` column is a list of jti strings. -/
structure User where
  id : Nat
  email : String
  password : String
  name : String
  role : String
  phone : Option String
  isSuspend : Bool
  refreshTokens : List String
  passwordResetOTP : Option String
  otpExpiry : Option Nat
  createdAt : Nat
  updatedAt : Nat
deriving DecidableEq

/-- A user row after the `const \x7b password, ...user \x7d = row` destructuring
used by every resolver that returns account data: every column except
`password`. -/
structure PublicUser where
  id : Nat
  email : String
  name : String
  role : String
  phone : Option String
  isSuspend : Bool
  refreshTokens : List String
  passwordResetOTP : Option String
  otpExpiry : Option Nat
  createdAt : Nat
  updatedAt : Nat
deriving DecidableEq

/-- The destructuring `const \x7b password, ...user \x7d = row`. -/
def toPublic (u : User) : PublicUser :=
  ⟨u.id, u.email, u.name, u.role, u.phone, u.isSuspend, u.refreshTokens,
   u.passwordResetOTP, u.otpExpiry, u.createdAt, u.updatedAt⟩

/-- `db.select().from(usersTable).where(eq(usersTable.email, email))`. -/
def selectByEmail (db : List User) (email : String) : List User :=
  db.filter (fun u => u.email = email)

/-- An update statement on the `users` table: rows matching the predicate have
the set clause `f` applied, and the schema hook `$onUpdate(() => new Date())`
sets `updatedAt` to the current time on every updated row. -/
def dbUpdateWhere (now : Nat) (p : User → Bool) (f : User → User)
    (db : List User) : List User :=
  db.map (fun u => if p u then { f u with updatedAt := now } else u)

/-- The token payload built by `login`: `\x7b userId, email, role \x7d` with
`userId = user.id.toString()`. -/
structure Payload where
  userId : String
  email : String
  role : String
deriving DecidableEq

/-- Result of a successful `login` mutation. -/
structure LoginResult where
  accessToken : String
  refreshToken : String
  user : PublicUser
deriving DecidableEq

/-- RegisterInput of src/graphql/resolvers/userMutations.ts; the role arrives
as the raw GraphQL enum string and the resolver lowercases it. -/
structure RegisterInput where
  email : String
  password : String
  name : String
  role : String
  phone : Option String
deriving DecidableEq

/-- The `\x7b success, message \x7d` payload returned by `register`. -/
structure SuccessResponse where
  success : Bool
  message : String
deriving DecidableEq

/-- `register` of src/graphql/resolvers/userMutations.ts. `hashPassword` is
the bcrypt hashing function, `newId` the identity value the database assigns,
`now` the clock. The context parameter is present, as in the source, and
unused: no guard is called. Columns absent from the insert take the schema
defaults (`isSuspend` false, `refreshTokens` empty, OTP fields null,
timestamps now). -/
def register (hashPassword : String → String) (now : Nat) (newId : Nat)
    (db : List User) (input : RegisterInput) (_context : GraphQLContext) :
    Except GqlError (SuccessResponse × List User) :=
  if (selectByEmail db input.email).length > 0 then
    .error emailExistsError
  else
    let hashedPassword := hashPassword input.password
    let newUser : User :=
      { id := newId
        email := input.email
        password := hashedPassword
        name := input.name
        role := strToLower input.role
        phone := input.phone
        isSuspend := false
        refreshTokens := []
        passwordResetOTP := none
        otpExpiry := none
        createdAt := now
        updatedAt := now }
    .ok (⟨true, "User registered successfully"⟩, db ++ [newUser])

/-- `login` of src/graphql/resolvers/userMutations.ts. `comparePassword` is
the bcrypt comparison (plaintext against stored digest); `signAccessToken`
returns the signed access token; `signRefreshToken` returns the pair
`(token, jti)`. The update statement appends the new jti to the selected
stored list of the selected user, and the schema hook refreshes `updatedAt`. -/
def login (comparePassword : String → String → Bool)
    (signAccessToken : Payload → String)
    (signRefreshToken : Payload → String × String)
    (now : Nat) (db : List User) (email password : String)
    (_context : GraphQLContext) :
    Except GqlError (LoginResult × List User) :=
  match selectByEmail db email with
  | [] => .error invalidCredentialsError
  | user :: _ =>
    if user.isSuspend then
      .error accountSuspendedError
    else if comparePassword password user.password = false then
      .error invalidCredentialsError
    else
      let payload : Payload := ⟨toString user.id, user.email, user.role⟩
      let accessToken := signAccessToken payload
      let refreshPair := signRefreshToken payload
      let db2 := dbUpdateWhere now (fun v => v.id = user.id)
        (fun v => { v with refreshTokens := user.refreshTokens ++ [refreshPair.2] }) db
      .ok (⟨accessToken, refreshPair.1, toPublic user⟩, db2)

/-- UpdateUserInput of src/graphql/resolvers/userMutations.ts: optional name
and phone. -/
structure UpdateUserInput where
  name : Option String
  phone : Option String
deriving DecidableEq

/-- The `...args.input` spread of `updateUser`: fields present in the input
overwrite the row, absent fields leave it unchanged. -/
def applyUserUpdate (input : UpdateUserInput) (u : User) : User :=
  let u1 := match input.name with
    | some n => { u with name := n }
    | none => u
  match input.phone with
  | some p => { u1 with phone := some p }
  | none => u1

/-- `Number.parseInt(s, 10)` restricted to the shapes that can match a row id:
the longest leading run of decimal digits, `none` when the string has no
leading digit (parseInt then yields NaN, which `eq(usersTable.id, NaN)` never
matches). Leading whitespace and sign handling are elided: a sign would parse
to a negative number, which also matches no generated identity id. -/
def parseIntTS (s : String) : Option Nat :=
  let digits := s.toList.takeWhile Char.isDigit
  if digits = [] then
    none
  else
    some (digits.foldl (fun n c => n * 10 + (c.toNat - 48)) 0)

/-- `db.select().from(usersTable).where(eq(usersTable.id, userId))` where
`userId` came from `Number.parseInt`. -/
def selectById (db : List User) (userId : Option Nat) : List User :=
  db.filter (fun u => some u.id = userId)

/-- The database after the update statement of `updateUser`: rows matching
the parsed id get the input fields applied and `updatedAt` refreshed. -/
def updatedDb (now : Nat) (db : List User) (idArg : String)
    (input : UpdateUserInput) : List User :=
  dbUpdateWhere now (fun u => some u.id = parseIntTS idArg)
    (applyUserUpdate input) db

/-- `updateUser` of src/graphql/resolvers/userMutations.ts: ownership check,
update with the schema hook on `updatedAt` (the source also sets it
explicitly, to the same clock value), re-select, strip the password. -/
def updateUser (now : Nat) (db : List User) (context : GraphQLContext)
    (idArg : String) (input : UpdateUserInput) :
    Except GqlError (PublicUser × List User) :=
  match requireOwnership context idArg with
  | .error e => .error e
  | .ok _ =>
    match selectById (updatedDb now db idArg input) (parseIntTS idArg) with
    | [] => .error userNotFoundError
    | u :: _ => .ok (toPublic u, updatedDb now db idArg input)

/-- The `users` query of src/graphql/resolvers/userQueries.ts: requires
authentication, returns every row with the password stripped. -/
def usersQuery (db : List User) (context : GraphQLContext) :
    Except GqlError (List PublicUser) :=
  match requireAuth context with
  | .error e => .error e
  | .ok _ => .ok (db.map toPublic)

/-- The `user` query of src/graphql/resolvers/userQueries.ts: no guard is
called; the context parameter is present, as in the source, and unused.
Returns `none` — GraphQL null — when no row matches. -/
def userQuery (db : List User) (idArg : String)
    (_context : GraphQLContext) : Option PublicUser :=
  match selectById db (parseIntTS idArg) with
  | [] => none
  | u :: _ => some (toPublic u)

/-- The `me` query of src/graphql/resolvers/userQueries.ts. -/
def meQuery (db : List User) (context : GraphQLContext) :
    Except GqlError PublicUser :=
  match requireAuth context with
  | .error e => .error e
  | .ok currentUser =>
    match selectById db (parseIntTS currentUser.userId) with
    | [] => .error userNotFoundError
    | u :: _ => .ok (toPublic u)

/-- Modelled from the spec: the token signing library src/lib/jwt.ts is not in
the repository snapshot. Configuration of the TokenService, section 9: a config
struct with fields accessSecret, refreshSecret, accessLifetime,
refreshLifetime. -/
structure TokenConfig where
  accessSecret : String
  refreshSecret : String
  accessLifetime : Nat
  refreshLifetime : Nat
deriving DecidableEq

/-- Modelled from the spec: the Identity decoded from a verified token,
section 3. -/
structure Identity where
  subject : String
  email : String
  role : String
deriving DecidableEq

/-- Modelled from the spec: the deterministic encoding
`\x7bsubject, email, role, iat, exp\x7d` of an access token, section 4.2. -/
structure AccessClaims where
  subject : String
  email : String
  role : String
  iat : Nat
  exp : Nat
deriving DecidableEq

/-- Modelled from the spec: a compact signed structure, section 6. The secret
field stands for the signature: verification against a secret succeeds exactly
when the token was signed with that secret. -/
structure SignedToken where
  secret : String
  claims : AccessClaims
deriving DecidableEq

/-- Modelled from the spec: the error kind InvalidToken of section 7, into
which signature mismatch, malformed payload, expiry and stale jti are all
collapsed. -/
inductive TokenError where
  | invalidToken
deriving DecidableEq

/-- Modelled from the spec: `issueAccessToken(identity) -> token` produces a
signed token with `exp = now + accessLifetime`, section 4.2. -/
def issueAccessToken (cfg : TokenConfig) (now : Nat) (ident : Identity) :
    SignedToken :=
  ⟨cfg.accessSecret, ⟨ident.subject, ident.email, ident.role, now, now + cfg.accessLifetime⟩⟩

/-- Modelled from the spec: `verifyAccessToken(token)` checks the signature
against the access-signing secret and checks `exp > now`; every failure is the
single kind InvalidToken, section 4.2. -/
def verifyAccessTokenModel (cfg : TokenConfig) (now : Nat) (t : SignedToken) :
    Except TokenError Identity :=
  if t.secret = cfg.accessSecret ∧ now < t.claims.exp then
    .ok ⟨t.claims.subject, t.claims.email, t.claims.role⟩
  else
    .error .invalidToken

/-- Modelled from the spec: `recordSession(userId, jti)` appends jti to the
current-token-set of the user, section 4.3; acting on the token list of one user. -/
def recordSession (tokens : List String) (jti : String) : List String :=
  tokens ++ [jti]

/-- Modelled from the spec: `isActive(userId, jti)` is a membership check,
section 4.3. -/
def isActive (tokens : List String) (jti : String) : Bool :=
  decide (jti ∈ tokens)

/-- Modelled from the spec: `revoke(userId, jti)` removes a single identifier,
section 4.3. -/
def revoke (tokens : List String) (jti : String) : List String :=
  tokens.filter (fun j => j ≠ jti)

/-- Modelled from the spec: `rotate(userId, oldJti, newJti)` removes oldJti
and adds newJti, section 4.3. -/
def rotate (tokens : List String) (oldJti newJti : String) : List String :=
  recordSession (revoke tokens oldJti) newJti

/-- Modelled from the spec: the refresh exchange of section 6 — the refresh
resolver is not in the repository snapshot. The token has already passed the
signature check and yielded its embedded jti; the store confirms the jti is
still current, then rotation replaces it with the freshly generated newJti;
a stale jti fails with InvalidToken. -/
def refreshExchange (tokens : List String) (oldJti newJti : String) :
    Except TokenError (List String) :=
  if isActive tokens oldJti then
    .ok (rotate tokens oldJti newJti)
  else
    .error .invalidToken

/-- Modelled from the spec: the operations that mutate a
current-token-set — login appends, refresh rotates, logout revokes,
section 3 lifecycle. -/
inductive SessionOp where
  | record (jti : String)
  | rotateOp (oldJti newJti : String)
  | revokeOp (jti : String)

/-- Modelled from the spec: the state change each session operation makes on
the token list of one user; a rotate whose old jti is stale leaves the list
unchanged (the refresh fails instead). -/
def applySessionOp (tokens : List String) : SessionOp → List String
  | .record j => recordSession tokens j
  | .rotateOp o n => if isActive tokens o then rotate tokens o n else tokens
  | .revokeOp j => revoke tokens j

/-- Whether a session operation adds the given jti to the set. Freshly
generated identifiers are unique, so an operation adding a given jti again
never occurs for a jti that was already issued. -/
def opAdds (j : String) : SessionOp → Bool
  | .record j2 => j2 = j
  | .rotateOp _ n => n = j
  | .revokeOp _ => false

/-- Concrete bcrypt comparison used on closed inputs: a digest matches exactly
the plaintext it tags. -/
def cmpFix : String → String → Bool := fun p h => h = "hash-" ++ p

/-- Concrete hashing function used on closed inputs. -/
def hashFix : String → String := fun p => "hash-" ++ p

/-- Concrete access-token signer used on closed inputs. -/
def saFix : Payload → String := fun _ => "access-token"

/-- Concrete refresh-token signer used on closed inputs: a fixed pair of
token and freshly generated jti. -/
def srFix : Payload → String × String := fun _ => ("refresh-token", "jti-new")

/-- A suspended account row used on closed inputs. -/
def aliceSuspended : User :=
  ⟨1, "alice@example.com", "hash-secret", "Alice", "customer", none, true,
   ["jti-old"], none, none, 0, 0⟩

/-- An ordinary account row used on closed inputs. -/
def bob : User :=
  ⟨2, "bob@example.com", "hash-pw", "Bob", "customer", none, false,
   ["jti-old"], none, none, 0, 0⟩

/-- The row of `bob` after a successful login at time 9 with `srFix`. -/
def bobAfterLogin : User :=
  { bob with refreshTokens := ["jti-old", "jti-new"], updatedAt := 9 }

/-- The row of `bob` after an `updateUser` renaming him at time 9. -/
def bobUpdated : User := { bob with name := "Bobby", updatedAt := 9 }

/-- A context carrying an admin identity, used on closed inputs. -/
def ctxAdmin : GraphQLContext := ⟨some ⟨"9", "admin@example.com", "admin"⟩⟩

/-- A context carrying the identity of `bob`, used on closed inputs. -/
def ctxBob : GraphQLContext := ⟨some ⟨"2", "bob@example.com", "customer"⟩⟩

/-- Concrete verifier used on closed inputs: accepts one token value. -/
def verifyFix : String → Option AuthUser :=
  fun t => if t = "good-token" then some ⟨"1", "a@b.c", "customer"⟩ else none

/-- Concrete token configuration used on closed inputs. -/
def cfgFix : TokenConfig := ⟨"access-secret", "refresh-secret", 10, 30⟩

/-- Concrete identity used on closed inputs. -/
def identFix : Identity := ⟨"1", "a@b.c", "customer"⟩

/-- C3: requireOwnership passes, returning the identity, exactly when the
subject of the identity equals the resource owner id or the role of the
identity is admin; with no identity present it fails with the Unauthenticated
error, and in every other case it fails with the Forbidden error. -/
theorem requireOwnership_characterization (context : GraphQLContext) (ownerId : String) :
    (context.user = none → requireOwnership context ownerId = .error unauthenticatedError)
    ∧ (∀ u, context.user = some u →
        ((u.userId = ownerId ∨ u.role = "admin") →
          requireOwnership context ownerId = .ok u)
        ∧ (u.userId ≠ ownerId → u.role ≠ "admin" →
          requireOwnership context ownerId = .error ownershipForbiddenError)) := by
  constructor
  · intro h
    simp [requireOwnership, requireAuth, h]
  · intro u hu
    constructor
    · intro hor
      rcases hor with h1 | h1 <;> simp [requireOwnership, requireAuth, hu, h1]
    · intro h1 h2
      simp [requireOwnership, requireAuth, hu, h1, h2]

/-- Closed instances of requireOwnership_characterization: anonymous caller,
matching owner, admin on a foreign resource, non-admin on a foreign
resource. -/
theorem requireOwnership_characterization_witness :
    requireOwnership ⟨none⟩ "1" = .error unauthenticatedError
    ∧ requireOwnership ⟨some ⟨"1", "a@b.c", "customer"⟩⟩ "1" = .ok ⟨"1", "a@b.c", "customer"⟩
    ∧ requireOwnership ⟨some ⟨"2", "a@b.c", "admin"⟩⟩ "1" = .ok ⟨"2", "a@b.c", "admin"⟩
    ∧ requireOwnership ⟨some ⟨"2", "a@b.c", "customer"⟩⟩ "1" = .error ownershipForbiddenError :=
  ⟨(requireOwnership_characterization ⟨none⟩ "1").1 rfl,
   ((requireOwnership_characterization ⟨some ⟨"1", "a@b.c", "customer"⟩⟩ "1").2 _ rfl).1
     (Or.inl rfl),
   ((requireOwnership_characterization ⟨some ⟨"2", "a@b.c", "admin"⟩⟩ "1").2 _ rfl).1
     (Or.inr rfl),
   ((requireOwnership_characterization ⟨some ⟨"2", "a@b.c", "customer"⟩⟩ "1").2 _ rfl).2
     (by decide) (by decide)⟩

/-- C5: the context-building step is a total function — no header value makes
it fail — and it yields an identity exactly when the header is present, starts
with the Bearer marker and the carried token verifies; in every other case the
context is empty. -/
theorem createContext_never_fails (verify : String → Option AuthUser) :
    createContext verify none = ⟨none⟩
    ∧ (∀ s, strStartsWith s "Bearer " = false → createContext verify (some s) = ⟨none⟩)
    ∧ (∀ s, strStartsWith s "Bearer " = true → verify (s.drop 7) = none →
        createContext verify (some s) = ⟨none⟩)
    ∧ (∀ s d, strStartsWith s "Bearer " = true → verify (s.drop 7) = some d →
        createContext verify (some s) = ⟨some ⟨d.userId, d.email, d.role⟩⟩) := by
  refine ⟨rfl, ?_, ?_, ?_⟩
  · intro s h
    simp [createContext, h]
  · intro s h hv
    simp [createContext, h, hv]
  · intro s d h hv
    simp [createContext, h, hv]

/-- Closed instances of createContext_never_fails: absent header, header with
a non-Bearer scheme, Bearer header with a rejected token, Bearer header with
an accepted token. -/
theorem createContext_never_fails_witness :
    createContext verifyFix none = ⟨none⟩
    ∧ createContext verifyFix (some "Token abc") = ⟨none⟩
    ∧ createContext verifyFix (some "Bearer bad") = ⟨none⟩
    ∧ createContext verifyFix (some "Bearer good-token") =
        ⟨some ⟨"1", "a@b.c", "customer"⟩⟩ :=
  ⟨(createContext_never_fails verifyFix).1,
   (createContext_never_fails verifyFix).2.1 "Token abc" (by decide),
   (createContext_never_fails verifyFix).2.2.1 "Bearer bad" (by decide) (by decide),
   (createContext_never_fails verifyFix).2.2.2 "Bearer good-token" ⟨"1", "a@b.c", "customer"⟩
     (by decide) (by decide)⟩

/-- C1 (amended): login checks the suspension flag before the password: with
no account matching the email it fails with InvalidCredentials; with a
suspended matching account it fails with AccountSuspended whatever the
password; with a non-suspended matching account and a password that does not
verify it fails with InvalidCredentials. -/
theorem login_suspension_precedes_password
    (cmp : String → String → Bool) (sa : Payload → String)
    (sr : Payload → String × String) (now : Nat) (db : List User)
    (email password : String) (ctx : GraphQLContext) :
    (selectByEmail db email = [] →
      login cmp sa sr now db email password ctx = .error invalidCredentialsError)
    ∧ (∀ u rest, selectByEmail db email = u :: rest →
        (u.isSuspend = true →
          login cmp sa sr now db email password ctx = .error accountSuspendedError)
        ∧ (u.isSuspend = false → cmp password u.password = false →
          login cmp sa sr now db email password ctx = .error invalidCredentialsError)) := by
  constructor
  · intro h
    simp [login, h]
  · intro u rest h
    constructor
    · intro hs
      simp [login, h, hs]
    · intro hs hc
      simp [login, h, hs, hc]

/-- C1 counterexample: a suspended account presented with a password that does
not verify is answered with AccountSuspended, not InvalidCredentials — the
claim that wrong credentials always yield InvalidCredentials fails here. -/
theorem login_suspended_wrong_password_counterexample :
    cmpFix "wrong" aliceSuspended.password = false
    ∧ login cmpFix saFix srFix 5 [aliceSuspended] "alice@example.com" "wrong" ⟨none⟩
        = .error accountSuspendedError
    ∧ accountSuspendedError ≠ invalidCredentialsError := by
  refine ⟨by decide, by decide, by decide⟩

/-- Closed instances of login_suspension_precedes_password: unknown email,
suspended account, wrong password on a live account. -/
theorem login_suspension_precedes_password_witness :
    login cmpFix saFix srFix 5 [aliceSuspended] "ghost@example.com" "pw" ⟨none⟩
      = .error invalidCredentialsError
    ∧ login cmpFix saFix srFix 5 [aliceSuspended] "alice@example.com" "secret" ⟨none⟩
      = .error accountSuspendedError
    ∧ login cmpFix saFix srFix 5 [bob] "bob@example.com" "bad" ⟨none⟩
      = .error invalidCredentialsError :=
  ⟨(login_suspension_precedes_password cmpFix saFix srFix 5 [aliceSuspended]
      "ghost@example.com" "pw" ⟨none⟩).1 (by decide),
   ((login_suspension_precedes_password cmpFix saFix srFix 5 [aliceSuspended]
      "alice@example.com" "secret" ⟨none⟩).2 aliceSuspended [] (by decide)).1 (by decide),
   ((login_suspension_precedes_password cmpFix saFix srFix 5 [bob]
      "bob@example.com" "bad" ⟨none⟩).2 bob [] (by decide)).2 (by decide) (by decide)⟩

/-- C6 (amended): provided the existing account is not suspended, an attempt
with an unknown email and an attempt with a known email but a failing password
produce the same error value — same message, same code — so the two cases are
indistinguishable to the caller. -/
theorem login_enumeration_resistant
    (cmp : String → String → Bool) (sa : Payload → String)
    (sr : Payload → String × String) (now1 now2 : Nat) (db : List User)
    (email1 email2 password1 password2 : String) (ctx1 ctx2 : GraphQLContext)
    (u : User) (rest : List User) :
    selectByEmail db email1 = [] →
    selectByEmail db email2 = u :: rest →
    u.isSuspend = false →
    cmp password2 u.password = false →
    login cmp sa sr now1 db email1 password1 ctx1
      = login cmp sa sr now2 db email2 password2 ctx2
    ∧ login cmp sa sr now1 db email1 password1 ctx1 = .error invalidCredentialsError := by
  intro h1 h2 hs hc
  constructor
  · simp [login, h1, h2, hs, hc]
  · simp [login, h1]

/-- C6 counterexample: when the existing account is suspended, the wrong
password attempt is answered with the suspension error, which differs in both
message and code from the unknown-email error, so the two attempts are
distinguishable. -/
theorem login_enumeration_suspended_counterexample :
    login cmpFix saFix srFix 5 [aliceSuspended] "ghost@example.com" "pw1" ⟨none⟩
      = .error invalidCredentialsError
    ∧ cmpFix "pw2" aliceSuspended.password = false
    ∧ login cmpFix saFix srFix 5 [aliceSuspended] "alice@example.com" "pw2" ⟨none⟩
      = .error accountSuspendedError
    ∧ accountSuspendedError.message ≠ invalidCredentialsError.message
    ∧ accountSuspendedError.code ≠ invalidCredentialsError.code := by
  refine ⟨by decide, by decide, by decide, by decide, by decide⟩

/-- Closed instance of login_enumeration_resistant: unknown email against a
wrong password on the live account of bob. -/
theorem login_enumeration_resistant_witness :
    login cmpFix saFix srFix 5 [bob] "ghost@example.com" "pw1" ⟨none⟩
      = login cmpFix saFix srFix 6 [bob] "bob@example.com" "pw2" ⟨none⟩
    ∧ login cmpFix saFix srFix 5 [bob] "ghost@example.com" "pw1" ⟨none⟩
      = .error invalidCredentialsError :=
  login_enumeration_resistant cmpFix saFix srFix 5 6 [bob]
    "ghost@example.com" "bob@example.com" "pw1" "pw2" ⟨none⟩ ⟨none⟩ bob []
    (by decide) (by decide) (by decide) (by decide)

/-- C4: register consults no context — any caller, the anonymous one included,
gets the same outcome — and with a free email it creates exactly one account
whose role is the lowercased caller-supplied role and whose other columns take
the input values and the schema defaults. -/
theorem register_unauthenticated_role_free
    (hash : String → String) (now newId : Nat) (db : List User)
    (input : RegisterInput) (ctx : GraphQLContext) :
    (∀ ctx2, register hash now newId db input ctx = register hash now newId db input ctx2)
    ∧ (selectByEmail db input.email = [] →
      register hash now newId db input ctx =
        .ok (⟨true, "User registered successfully"⟩,
          db ++ [{ id := newId, email := input.email, password := hash input.password,
                   name := input.name, role := strToLower input.role, phone := input.phone,
                   isSuspend := false, refreshTokens := [], passwordResetOTP := none,
                   otpExpiry := none, createdAt := now, updatedAt := now }])) := by
  constructor
  · intro ctx2
    rfl
  · intro h
    simp [register, h]

/-- Closed instance of register_unauthenticated_role_free: an anonymous caller
registers with role ADMIN and the stored account has role admin. -/
theorem register_unauthenticated_role_free_witness :
    register hashFix 7 3 [] ⟨"x@y.z", "pw", "X", "ADMIN", none⟩ ⟨none⟩ =
      .ok (⟨true, "User registered successfully"⟩,
        [⟨3, "x@y.z", "hash-pw", "X", "admin", none, false, [], none, none, 7, 7⟩]) := by
  have h := (register_unauthenticated_role_free hashFix 7 3 []
    ⟨"x@y.z", "pw", "X", "ADMIN", none⟩ ⟨none⟩).2 (by decide)
  rw [h]
  decide

/-- C7 (amended): a successful login rewrites the database so that the row of
the logged-in user gets exactly the freshly issued jti appended to its stored
token list — every previously stored identifier retained — while the schema
hook also refreshes the updatedAt column of that row; rows of other users are
untouched. -/
theorem login_appends_fresh_jti
    (cmp : String → String → Bool) (sa : Payload → String)
    (sr : Payload → String × String) (now : Nat) (db : List User)
    (email password : String) (ctx : GraphQLContext)
    (r : LoginResult) (db2 : List User) :
    login cmp sa sr now db email password ctx = .ok (r, db2) →
    ∃ u rest, selectByEmail db email = u :: rest ∧
      db2 = dbUpdateWhere now (fun v => v.id = u.id)
        (fun v => { v with
          refreshTokens := u.refreshTokens ++ [(sr ⟨toString u.id, u.email, u.role⟩).2] })
        db := by
  intro h
  unfold login at h
  cases hsel : selectByEmail db email with
  | nil =>
    rw [hsel] at h
    simp at h
  | cons u rest =>
    rw [hsel] at h
    cases hs : u.isSuspend with
    | true =>
      simp [hs] at h
    | false =>
      cases hc : cmp password u.password with
      | false =>
        simp [hs, hc] at h
      | true =>
        simp [hs, hc] at h
        exact ⟨u, rest, rfl, h.2.symm⟩

/-- Closed instance of login_appends_fresh_jti: the login of bob at time 9
rewrites his row to bobAfterLogin. -/
theorem login_appends_fresh_jti_witness :
    ∃ u rest, selectByEmail [bob] "bob@example.com" = u :: rest ∧
      [bobAfterLogin] = dbUpdateWhere 9 (fun v => v.id = u.id)
        (fun v => { v with
          refreshTokens := u.refreshTokens ++ [(srFix ⟨toString u.id, u.email, u.role⟩).2] })
        [bob] :=
  login_appends_fresh_jti cmpFix saFix srFix 9 [bob] "bob@example.com" "pw" ⟨none⟩
    ⟨"access-token", "refresh-token", toPublic bob⟩ [bobAfterLogin] (by decide)

/-- C7 counterexample: the successful login of bob appends the fresh jti as
claimed, but also changes the updatedAt column of his row — the schema hook
on updates fires — so the claim that no other field changes fails. -/
theorem login_changes_updatedAt_counterexample :
    login cmpFix saFix srFix 9 [bob] "bob@example.com" "pw" ⟨none⟩
      = .ok (⟨"access-token", "refresh-token", toPublic bob⟩, [bobAfterLogin])
    ∧ bobAfterLogin.refreshTokens = bob.refreshTokens ++ ["jti-new"]
    ∧ bobAfterLogin.updatedAt ≠ bob.updatedAt := by
  refine ⟨by decide, by decide, by decide⟩

/-- C9: the user-by-id query ignores the context entirely — anonymous and
authenticated callers get the same result — and returns the matching row with
the password stripped when one exists, and null, not an error, when none
does. -/
theorem user_query_anonymous (db : List User) (idArg : String) (ctx : GraphQLContext) :
    (∀ ctx2, userQuery db idArg ctx = userQuery db idArg ctx2)
    ∧ (selectById db (parseIntTS idArg) = [] → userQuery db idArg ctx = none)
    ∧ (∀ u rest, selectById db (parseIntTS idArg) = u :: rest →
        userQuery db idArg ctx = some (toPublic u)) := by
  refine ⟨fun _ => rfl, ?_, ?_⟩
  · intro h
    simp [userQuery, h]
  · intro u rest h
    simp [userQuery, h]

/-- Closed instances of user_query_anonymous: an anonymous lookup of an
existing id and of a missing id. -/
theorem user_query_anonymous_witness :
    userQuery [bob] "2" ⟨none⟩ = some (toPublic bob)
    ∧ userQuery [bob] "5" ⟨none⟩ = none :=
  ⟨(user_query_anonymous [bob] "2" ⟨none⟩).2.2 bob [] (by decide),
   (user_query_anonymous [bob] "5" ⟨none⟩).2.1 (by decide)⟩

/-- C2: a refresh exchange presenting a given jti succeeds at most once — once
the jti has been rotated away, a second exchange presenting it fails with
InvalidToken — and no session operation whose added identifiers are fresh
(distinct from the removed jti) ever puts that jti back into the
current-token-set. -/
theorem refresh_jti_single_use (tokens : List String) (j n : String) :
    (∀ s2 n2, n ≠ j → refreshExchange tokens j n = .ok s2 →
      refreshExchange s2 j n2 = .error .invalidToken)
    ∧ (∀ op : SessionOp, opAdds j op = false → isActive tokens j = false →
        isActive (applySessionOp tokens op) j = false) := by
  constructor
  · intro s2 n2 hne h
    unfold refreshExchange at h ⊢
    cases ha : isActive tokens j with
    | false =>
      rw [ha] at h
      simp at h
    | true =>
      rw [ha] at h
      simp at h
      have hia : isActive s2 j = false := by
        rw [← h]
        simp [rotate, recordSession, revoke, isActive, Ne.symm hne]
      rw [hia]
      simp
  · intro op hop hact
    cases op with
    | record j2 =>
      simp [opAdds] at hop
      simp [isActive] at hact
      simp [applySessionOp, recordSession, isActive, hact, Ne.symm hop]
    | rotateOp o n2 =>
      simp [opAdds] at hop
      simp [isActive] at hact
      cases ho : isActive tokens o with
      | false =>
        simp [isActive] at ho
        simp [applySessionOp, isActive, ho, hact]
      | true =>
        simp [isActive] at ho
        simp [applySessionOp, isActive, ho, rotate, recordSession, revoke,
          hact, Ne.symm hop]
    | revokeOp j2 =>
      simp [isActive] at hact
      simp [applySessionOp, revoke, isActive, hact]

/-- Closed instances of refresh_jti_single_use: the jti j0, rotated away in a
first exchange, is refused by a second exchange, and recording a fresh jti
never reactivates it. -/
theorem refresh_jti_single_use_witness :
    refreshExchange ["j1"] "j0" "j2" = .error .invalidToken
    ∧ isActive (applySessionOp [] (.record "j2")) "j0" = false :=
  ⟨(refresh_jti_single_use ["j0"] "j0" "j1").1 ["j1"] "j2" (by decide) (by decide),
   (refresh_jti_single_use [] "j0" "j1").2 (.record "j2") (by decide) (by decide)⟩

/-- C8: verifying the token issued for an identity returns that identity —
subject, email and role preserved — at every instant strictly before the
expiry now + accessLifetime, and fails with InvalidToken at every instant
from the expiry on. -/
theorem access_token_round_trip (cfg : TokenConfig) (t0 t : Nat) (ident : Identity) :
    (t < t0 + cfg.accessLifetime →
      verifyAccessTokenModel cfg t (issueAccessToken cfg t0 ident) = .ok ident)
    ∧ (t0 + cfg.accessLifetime ≤ t →
      verifyAccessTokenModel cfg t (issueAccessToken cfg t0 ident)
        = .error .invalidToken) := by
  constructor
  · intro h
    simp [verifyAccessTokenModel, issueAccessToken, h]
  · intro h
    simp [verifyAccessTokenModel, issueAccessToken, Nat.not_lt.mpr h]

/-- Closed instances of access_token_round_trip: with lifetime 10, a token
issued at 0 verifies at 3 and is refused at 10. -/
theorem access_token_round_trip_witness :
    verifyAccessTokenModel cfgFix 3 (issueAccessToken cfgFix 0 identFix) = .ok identFix
    ∧ verifyAccessTokenModel cfgFix 10 (issueAccessToken cfgFix 0 identFix)
        = .error .invalidToken :=
  ⟨(access_token_round_trip cfgFix 0 3 identFix).1 (by decide),
   (access_token_round_trip cfgFix 0 10 identFix).2 (by decide)⟩

/-- C10: the projection stripping the password ignores it entirely, and every
resolver returning account data — login, updateUser, users, user, me —
returns exactly that projection of a stored row, so no result ever carries
the stored password hash. -/
theorem resolvers_never_return_password :
    (∀ (u : User) (p : String), toPublic { u with password := p } = toPublic u)
    ∧ (∀ (cmp : String → String → Bool) (sa : Payload → String)
        (sr : Payload → String × String) (now : Nat) (db : List User)
        (email password : String) (ctx : GraphQLContext) (r : LoginResult)
        (db2 : List User),
        login cmp sa sr now db email password ctx = .ok (r, db2) →
        ∃ u rest, selectByEmail db email = u :: rest ∧ r.user = toPublic u)
    ∧ (∀ (now : Nat) (db : List User) (ctx : GraphQLContext) (idArg : String)
        (input : UpdateUserInput) (pu : PublicUser) (db2 : List User),
        updateUser now db ctx idArg input = .ok (pu, db2) →
        ∃ v, v ∈ db2 ∧ pu = toPublic v)
    ∧ (∀ (db : List User) (ctx : GraphQLContext) (res : List PublicUser),
        usersQuery db ctx = .ok res → res = db.map toPublic)
    ∧ (∀ (db : List User) (idArg : String) (ctx : GraphQLContext) (pu : PublicUser),
        userQuery db idArg ctx = some pu → ∃ v, v ∈ db ∧ pu = toPublic v)
    ∧ (∀ (db : List User) (ctx : GraphQLContext) (pu : PublicUser),
        meQuery db ctx = .ok pu → ∃ v, v ∈ db ∧ pu = toPublic v) := by
  refine ⟨fun u p => rfl, ?_, ?_, ?_, ?_, ?_⟩
  · intro cmp sa sr now db email password ctx r db2 h
    unfold login at h
    cases hsel : selectByEmail db email with
    | nil =>
      rw [hsel] at h
      simp at h
    | cons u rest =>
      rw [hsel] at h
      cases hs : u.isSuspend with
      | true => simp [hs] at h
      | false =>
        cases hc : cmp password u.password with
        | false => simp [hs, hc] at h
        | true =>
          simp [hs, hc] at h
          exact ⟨u, rest, rfl, by rw [← h.1]⟩
  · intro now db ctx idArg input pu db2 h
    unfold updateUser at h
    cases hg : requireOwnership ctx idArg with
    | error e =>
      rw [hg] at h
      simp at h
    | ok w =>
      rw [hg] at h
      cases hsel : selectById (updatedDb now db idArg input) (parseIntTS idArg) with
      | nil =>
        rw [hsel] at h
        simp at h
      | cons v rest =>
        rw [hsel] at h
        simp at h
        refine ⟨v, ?_, h.1.symm⟩
        rw [← h.2]
        have hv : v ∈ selectById (updatedDb now db idArg input) (parseIntTS idArg) := by
          rw [hsel]
          exact List.mem_cons_self v rest
        exact List.mem_of_mem_filter hv
  · intro db ctx res h
    unfold usersQuery at h
    cases hg : requireAuth ctx with
    | error e =>
      rw [hg] at h
      simp at h
    | ok w =>
      rw [hg] at h
      simp at h
      exact h.symm
  · intro db idArg ctx pu h
    unfold userQuery at h
    cases hsel : selectById db (parseIntTS idArg) with
    | nil =>
      rw [hsel] at h
      simp at h
    | cons v rest =>
      rw [hsel] at h
      simp at h
      refine ⟨v, ?_, h.symm⟩
      have hv : v ∈ selectById db (parseIntTS idArg) := by
        rw [hsel]
        exact List.mem_cons_self v rest
      exact List.mem_of_mem_filter hv
  · intro db ctx pu h
    unfold meQuery at h
    cases hg : requireAuth ctx with
    | error e =>
      rw [hg] at h
      simp at h
    | ok w =>
      rw [hg] at h
      cases hsel : selectById db (parseIntTS w.userId) with
      | nil =>
        simp [hsel] at h
      | cons v rest =>
        simp [hsel] at h
        refine ⟨v, ?_, h.symm⟩
        have hv : v ∈ selectById db (parseIntTS w.userId) := by
          rw [hsel]
          exact List.mem_cons_self v rest
        exact List.mem_of_mem_filter hv

/-- Closed instances of resolvers_never_return_password: the projection on
the row of bob with a replaced digest, and one successful run of each of
login, updateUser, users, user and me. -/
theorem resolvers_never_return_password_witness :
    toPublic { bob with password := "other" } = toPublic bob
    ∧ (∃ u rest, selectByEmail [bob] "bob@example.com" = u :: rest ∧
        (⟨"access-token", "refresh-token", toPublic bob⟩ : LoginResult).user = toPublic u)
    ∧ (∃ v, v ∈ [bobUpdated] ∧ toPublic bobUpdated = toPublic v)
    ∧ [toPublic bob] = [bob].map toPublic
    ∧ (∃ v, v ∈ [bob] ∧ toPublic bob = toPublic v)
    ∧ (∃ v, v ∈ [bob] ∧ toPublic bob = toPublic v) :=
  ⟨resolvers_never_return_password.1 bob "other",
   resolvers_never_return_password.2.1 cmpFix saFix srFix 9 [bob] "bob@example.com"
     "pw" ⟨none⟩ ⟨"access-token", "refresh-token", toPublic bob⟩ [bobAfterLogin]
     (by decide),
   resolvers_never_return_password.2.2.1 9 [bob] ctxAdmin "2" ⟨some "Bobby", none⟩
     (toPublic bobUpdated) [bobUpdated] (by decide),
   resolvers_never_return_password.2.2.2.1 [bob] ctxBob [toPublic bob] (by decide),
   resolvers_never_return_password.2.2.2.2.1 [bob] "2" ⟨none⟩ (toPublic bob) (by decide),
   resolvers_never_return_password.2.2.2.2.2 [bob] ctxBob (toPublic bob) (by decide)⟩

end GraphqlExpress
